import Mathlib

/-
Verification of the puffy-sysctl crate: a string-path to MIB resolver for
the OpenBSD sysctl facility, a raw invoker that drives the one or two
phase kernel call protocol, and a typed value codec.

Shallow embedding conventions:
  * Rust `c_int` values are modelled as `Int`.
  * A fallible Rust computation that may also abort is modelled as `ROut`
    with constructors `ok`, `err` (the `nix::Error` values the crate
    returns) and `panicked` (an out of bounds index or a reached
    `unimplemented` macro in the source).
  * The source builds the `mib` vector by successive `push` calls and
    mutates `value_type` / `changeable` starting from the defaults
    `Int32` / `false`; here every match arm returns the final record the
    pushes would have produced.
  * Numeric codes defined at the top of `lib.rs` are transcribed verbatim;
    codes the source imports from the `libc` crate carry the values of the
    OpenBSD platform headers for that name.
-/

namespace PuffySysctl

/-- Error type of the crate: `nix::Error`. The crate only ever constructs
`Error::invalid_argument()` for resolution failures and `Error::Sys(errno)`
for kernel failures. -/
inductive NixError where
  | invalidArgument : NixError
  | sys : Int → NixError
deriving DecidableEq, Repr

/-- Outcome of running a fallible Rust computation: a value, an `Err`, or an
aborted process (index out of bounds, or an `unimplemented` macro). -/
inductive ROut (α : Type) where
  | ok : α → ROut α
  | err : NixError → ROut α
  | panicked : String → ROut α
deriving DecidableEq, Repr

/-- `enum SysctlType` from lib.rs. -/
inductive SysctlType where
  | DevT
  | Int64
  | Int32
  | Long
  | Node
  | SysString
  | SysStruct
  | UInt8Slice
  | UInt32Slice
  | UInt64Slice
  | UShortSlice
deriving DecidableEq, Repr

/-- `struct Sysctl` from lib.rs: the resolved target. -/
structure Sysctl where
  mib : List Int
  value_type : SysctlType
  changeable : Bool
deriving DecidableEq, Repr

-- Top level domain codes, from the OpenBSD headers via the libc crate.
def CTL_KERN : Int := 1
def CTL_VM : Int := 2
def CTL_FS : Int := 3
def CTL_NET : Int := 4
def CTL_DEBUG : Int := 5
def CTL_HW : Int := 6
def CTL_MACHDEP : Int := 7
def CTL_DDB : Int := 9
def CTL_VFS : Int := 10
def CTL_MAXNAME : Int := 12

-- KERN_* codes from the libc crate (OpenBSD sys/sysctl.h numbering).
def KERN_OSTYPE : Int := 1
def KERN_OSRELEASE : Int := 2
def KERN_OSREV : Int := 3
def KERN_VERSION : Int := 4
def KERN_MAXVNODES : Int := 5
def KERN_MAXPROC : Int := 6
def KERN_MAXFILES : Int := 7
def KERN_ARGMAX : Int := 8
def KERN_SECURELVL : Int := 9
def KERN_HOSTNAME : Int := 10
def KERN_HOSTID : Int := 11
def KERN_CLOCKRATE : Int := 12
def KERN_PROF : Int := 16
def KERN_POSIX1 : Int := 17
def KERN_NGROUPS : Int := 18
def KERN_JOB_CONTROL : Int := 19
def KERN_SAVED_IDS : Int := 20
def KERN_BOOTTIME : Int := 21
def KERN_DOMAINNAME : Int := 22
def KERN_MAXPARTITIONS : Int := 23
def KERN_RAWPARTITION : Int := 24
def KERN_MAXTHREAD : Int := 25
def KERN_NTHREADS : Int := 26
def KERN_OSVERSION : Int := 27
def KERN_SOMAXCONN : Int := 28
def KERN_SOMINCONN : Int := 29
def KERN_NOSUIDCOREDUMP : Int := 32
def KERN_FSYNC : Int := 33
def KERN_SYSVMSG : Int := 34
def KERN_SYSVSEM : Int := 35
def KERN_SYSVSHM : Int := 36
def KERN_MSGBUFSIZE : Int := 38
def KERN_MALLOCSTATS : Int := 39
def KERN_CPTIME : Int := 40
def KERN_NCHSTATS : Int := 41
def KERN_FORKSTAT : Int := 42
def KERN_NSELCOLL : Int := 43
def KERN_TTY : Int := 44
def KERN_CCPU : Int := 45
def KERN_FSCALE : Int := 46
def KERN_NPROCS : Int := 47
def KERN_MSGBUF : Int := 48
def KERN_POOL : Int := 49
def KERN_STACKGAPRANDOM : Int := 50
def KERN_SYSVIPC_INFO : Int := 51
def KERN_SPLASSERT : Int := 54
def KERN_PROC_ARGS : Int := 55
def KERN_NFILES : Int := 56
def KERN_TTYCOUNT : Int := 57
def KERN_NUMVNODES : Int := 58
def KERN_MBSTAT : Int := 59
def KERN_SEMINFO : Int := 61
def KERN_SHMINFO : Int := 62
def KERN_INTRCNT : Int := 63
def KERN_WATCHDOG : Int := 64
def KERN_PROC : Int := 66
def KERN_MAXCLUSTERS : Int := 67
def KERN_EVCOUNT : Int := 68
def KERN_TIMECOUNTER : Int := 69
def KERN_MAXLOCKSPERUID : Int := 70
def KERN_CPTIME2 : Int := 71
def KERN_CACHEPCT : Int := 72
def KERN_FILE : Int := 73
def KERN_CONSDEV : Int := 75
def KERN_NETLIVELOCKS : Int := 76
def KERN_POOL_DEBUG : Int := 77
def KERN_PROC_CWD : Int := 78
def KERN_PROC_NOBROADCASTKILL : Int := 79
def KERN_PROC_VMMAP : Int := 80
def KERN_GLOBAL_PTRACE : Int := 81
def KERN_CONSBUFSIZE : Int := 82
def KERN_CONSBUF : Int := 83
def KERN_AUDIO : Int := 84

-- Codes defined locally at the top of lib.rs, transcribed verbatim.
def KERN_ALLOWKMEM : Int := 54
def KERN_AUDIO_RECORD : Int := 1
def KERN_MALLOC_BUCKET : Int := 2
def KERN_MALLOC_BUCKETS : Int := 1
def KERN_MALLOC_KMEMNAMES : Int := 3
def KERN_MALLOC_KMEMSTAT : Int := 4
def KERN_SEMINFO_SEMAEM : Int := 9
def KERN_SEMINFO_SEMMNI : Int := 1
def KERN_SEMINFO_SEMMNS : Int := 2
def KERN_SEMINFO_SEMMNU : Int := 3
def KERN_SEMINFO_SEMMSL : Int := 4
def KERN_SEMINFO_SEMOPM : Int := 5
def KERN_SEMINFO_SEMUME : Int := 6
def KERN_SEMINFO_SEMUSZ : Int := 7
def KERN_SEMINFO_SEMVMX : Int := 8
def KERN_SHMINFO_SHMALL : Int := 5
def KERN_SHMINFO_SHMMAX : Int := 1
def KERN_SHMINFO_SHMMIN : Int := 2
def KERN_SHMINFO_SHMMNI : Int := 3
def KERN_SHMINFO_SHMSEG : Int := 4
def KERN_TIMECOUNTER_CHOICE : Int := 4
def KERN_TIMECOUNTER_HARDWARE : Int := 3
def KERN_TIMECOUNTER_TICK : Int := 1
def KERN_TIMECOUNTER_TIMESTEPWARNINGS : Int := 2
def KERN_WATCHDOG_AUTO : Int := 2
def KERN_WATCHDOG_PERIOD : Int := 1
def KERN_WITNESS : Int := 60
def KERN_WITNESS_WATCH : Int := 1
def KERN_WXABORT : Int := 74

def DBCTL_RADIX : Int := 1
def DBCTL_MAXWIDTH : Int := 2
def DBCTL_MAXLINE : Int := 3
def DBCTL_TABSTOP : Int := 4
def DBCTL_PANIC : Int := 5
def DBCTL_CONSOLE : Int := 6
def DBCTL_LOG : Int := 7
def DBCTL_TRIGGER : Int := 8
def DBCTL_PROFILE : Int := 9
def DBCTL_MAXID : Int := 10

def FFS_CLUSTERREAD : Int := 1
def FFS_CLUSTERWRITE : Int := 2
def FFS_REALLOCBLKS : Int := 3
def FFS_ASYNCFREE : Int := 4
def FFS_MAX_SOFTDEPS : Int := 5
def FFS_SD_TICKDELAY : Int := 6
def FFS_SD_WORKLIST_PUSH : Int := 7
def FFS_SD_BLK_LIMIT_PUSH : Int := 8
def FFS_SD_INO_LIMIT_PUSH : Int := 9
def FFS_SD_BLK_LIMIT_HIT : Int := 10
def FFS_SD_INO_LIMIT_HIT : Int := 11
def FFS_SD_SYNC_LIMIT_HIT : Int := 12
def FFS_SD_INDIR_BLK_PTRS : Int := 13
def FFS_SD_INODE_BITMAP : Int := 14
def FFS_SD_DIRECT_BLK_PTRS : Int := 15
def FFS_SD_DIR_ENTRY : Int := 16
def FFS_DIRHASH_DIRSIZE : Int := 17
def FFS_DIRHASH_MAXMEM : Int := 18
def FFS_DIRHASH_MEM : Int := 19
def FFS_MAXID : Int := 20

def FUSEFS_INBUFS : Int := 2
def FUSEFS_OPENDEVS : Int := 1
def FUSEFS_POOL_NBPAGES : Int := 4
def FUSEFS_WAITBUFS : Int := 3

def FS_POSIX : Int := 1
def FS_POSIX_SETUID : Int := 1

def HW_MACHINE : Int := 1
def HW_MODEL : Int := 2
def HW_NCPU : Int := 3
def HW_BYTEORDER : Int := 4
def HW_PAGESIZE : Int := 7
def HW_DISKNAMES : Int := 8
def HW_DISKSTATS : Int := 9
def HW_DISKCOUNT : Int := 10
def HW_SENSORS : Int := 11
def HW_CPUSPEED : Int := 12
def HW_SETPERF : Int := 13
def HW_VENDOR : Int := 14
def HW_PRODUCT : Int := 15
def HW_VERSION : Int := 16
def HW_SERIALNO : Int := 17
def HW_UUID : Int := 18
def HW_PHYSMEM64 : Int := 19
def HW_USERMEM64 : Int := 20
def HW_NCPUFOUND : Int := 21
def HW_ALLOWPOWERDOWN : Int := 22
def HW_PERFPOLICY : Int := 23
def HW_SMT : Int := 24
def HW_NCPUONLINE : Int := 25
def HW_MAXID : Int := 26

def MACHDEP_ALLOWAPERTURE : Int := 5
def MACHDEP_KBDRESET : Int := 10
def MACHDEP_LIDACTION : Int := 14
def MACHDEP_PWRACTION : Int := 18

def MPLSCTL_DEFTTL : Int := 2
def MPLSCTL_MAPTTL_IP : Int := 5
def MPLSCTL_MAPTTL_IP6 : Int := 6
def MPLSCTL_MAXINKLOOP : Int := 4

def NFS_NFSSTATS : Int := 1
def NFS_NIOTHREADS : Int := 2

def PIPEXCTL_ENABLE : Int := 1
def PIPEXCTL_INQ : Int := 2
def PIPEXCTL_OUTQ : Int := 3

def VM_ANONMIN : Int := 7
def VM_LOADAVG : Int := 2
def VM_MALLOC_CONF : Int := 12
def VM_MAXSLP : Int := 10
def VM_METER : Int := 1
def VM_NKMEMPAGES : Int := 6
def VM_PSSTRINGS : Int := 3
def VM_SWAPENCRYPT : Int := 5
def VM_USPACE : Int := 11
def VM_UVMEXP : Int := 4
def VM_VNODEMIN : Int := 9
def VM_VTEXTMIN : Int := 8

-- Address and protocol family codes (OpenBSD sys/socket.h via libc),
-- plus the two defined locally in lib.rs (AF_INET, AF_INET6).
def AF_UNIX : Int := 1
def AF_LOCAL : Int := 1
def AF_INET : Int := 2
def AF_IMPLINK : Int := 3
def AF_PUP : Int := 4
def AF_CHAOS : Int := 5
def AF_NS : Int := 6
def AF_ISO : Int := 7
def AF_OSI : Int := 7
def AF_ECMA : Int := 8
def AF_DATAKIT : Int := 9
def AF_CCITT : Int := 10
def AF_SNA : Int := 11
def AF_DECnet : Int := 12
def AF_DLI : Int := 13
def AF_LAT : Int := 14
def AF_HYLINK : Int := 15
def AF_APPLETALK : Int := 16
def AF_ROUTE : Int := 17
def AF_LINK : Int := 18
def AF_COIP : Int := 20
def AF_CNT : Int := 21
def AF_IPX : Int := 23
def AF_INET6 : Int := 24
def AF_ISDN : Int := 26
def AF_E164 : Int := 26
def AF_NATM : Int := 27
def AF_ENCAP : Int := 28
def AF_SIP : Int := 29
def AF_KEY : Int := 30
def AF_BLUETOOTH : Int := 32
def AF_MPLS : Int := 33
def PF_ROUTE : Int := 17
def PF_INET : Int := 2
def PF_INET6 : Int := 24
def PF_KEY : Int := 30
def PF_MPLS : Int := 33
def PF_PIPEX : Int := 35
def pseudo_AF_HDRCMPLT : Int := 31

-- IP protocol numbers (OpenBSD netinet/in.h via libc).
def IPPROTO_IP : Int := 0
def IPPROTO_ICMP : Int := 1
def IPPROTO_IPIP : Int := 4
def IPPROTO_TCP : Int := 6
def IPPROTO_UDP : Int := 17
def IPPROTO_IPV6 : Int := 41
def IPPROTO_GRE : Int := 47
def IPPROTO_ESP : Int := 50
def IPPROTO_AH : Int := 51
def IPPROTO_MOBILE : Int := 55
def IPPROTO_ICMPV6 : Int := 58
def IPPROTO_ETHERIP : Int := 97
def IPPROTO_IPCOMP : Int := 108
def IPPROTO_CARP : Int := 112
def IPPROTO_DIVERT : Int := 258

def NET_RT_DUMP : Int := 1
def NET_RT_FLAGS : Int := 2
def NET_RT_IFLIST : Int := 3
def NET_RT_STATS : Int := 4
def NET_RT_TABLE : Int := 5
def NET_RT_IFNAMES : Int := 6

def CTL_DEBUG_NAME : Int := 0
def CTL_DEBUG_VALUE : Int := 1
def CTL_DEBUG_MAXID : Int := 20

/-- Message a Rust slice index panic carries; the code under study prints the
formatted libcore message, here abbreviated to a fixed tag. -/
def oobMsg : String := "index out of bounds"

/-- Tag for a reached `unimplemented` macro. -/
def unimplMsg : String := "not implemented"

/-- The delimiter predicate of `parse_mib_str`: the closure
passed to `str::split`, true on the assignment and hierarchy delimiters. -/
def isDelim (c : Char) : Bool := c == '=' || c == '.'

/-- `str::split` with the delimiter predicate above, on the character list
of the input. Like the Rust iterator it yields one (possibly empty) group
per run between delimiters, so the result is never empty and empty
segments are preserved. -/
def splitChars : List Char → List (List Char)
  | [] => [[]]
  | c :: rest =>
    if isDelim c then
      [] :: splitChars rest
    else
      match splitChars rest with
      | [] => [[c]]
      | g :: gs => (c :: g) :: gs

/-- `parse_mib_kern` from lib.rs. Input is the segment slice after the
leading "kern". Defaults in the source: `value_type = Int32`,
`changeable = false`; each arm below returns the record its pushes and
assignments produce. -/
def parse_mib_kern (names : List String) : ROut Sysctl :=
  match names.get? 0 with
  | none => .panicked oobMsg
  | some n0 =>
    match n0 with
    | "ostype" => .ok ⟨[CTL_KERN, KERN_OSTYPE], .SysString, false⟩
    | "osrelease" => .ok ⟨[CTL_KERN, KERN_OSRELEASE], .SysString, false⟩
    | "osrevision" => .ok ⟨[CTL_KERN, KERN_OSREV], .Int32, false⟩
    | "version" => .ok ⟨[CTL_KERN, KERN_VERSION], .SysString, false⟩
    | "maxvnodes" => .ok ⟨[CTL_KERN, KERN_MAXVNODES], .Int32, true⟩
    | "maxproc" => .ok ⟨[CTL_KERN, KERN_MAXPROC], .Int32, true⟩
    | "maxfiles" => .ok ⟨[CTL_KERN, KERN_MAXFILES], .Int32, true⟩
    | "argmax" => .ok ⟨[CTL_KERN, KERN_ARGMAX], .Int32, false⟩
    | "securelevel" => .ok ⟨[CTL_KERN, KERN_SECURELVL], .Int32, true⟩
    | "hostname" => .ok ⟨[CTL_KERN, KERN_HOSTNAME], .SysString, true⟩
    | "hostid" => .ok ⟨[CTL_KERN, KERN_HOSTID], .Int32, true⟩
    | "clockrate" => .ok ⟨[CTL_KERN, KERN_CLOCKRATE], .SysStruct, false⟩
    | "profiling" => .ok ⟨[CTL_KERN, KERN_PROF], .Node, false⟩
    | "posix1version" => .ok ⟨[CTL_KERN, KERN_POSIX1], .Int32, false⟩
    | "ngroups" => .ok ⟨[CTL_KERN, KERN_NGROUPS], .Int32, false⟩
    | "job_control" => .ok ⟨[CTL_KERN, KERN_JOB_CONTROL], .Int32, false⟩
    | "saved_ids" => .ok ⟨[CTL_KERN, KERN_SAVED_IDS], .Int32, false⟩
    | "boottime" => .ok ⟨[CTL_KERN, KERN_BOOTTIME], .SysStruct, false⟩
    | "domainname" => .ok ⟨[CTL_KERN, KERN_DOMAINNAME], .SysString, true⟩
    | "maxpartitions" => .ok ⟨[CTL_KERN, KERN_MAXPARTITIONS], .Int32, false⟩
    | "rawpartition" => .ok ⟨[CTL_KERN, KERN_RAWPARTITION], .Int32, false⟩
    | "maxthread" => .ok ⟨[CTL_KERN, KERN_MAXTHREAD], .Int32, true⟩
    | "nthreads" => .ok ⟨[CTL_KERN, KERN_NTHREADS], .Int32, false⟩
    | "osversion" => .ok ⟨[CTL_KERN, KERN_OSVERSION], .SysString, false⟩
    | "somaxconn" => .ok ⟨[CTL_KERN, KERN_SOMAXCONN], .Int32, true⟩
    | "sominconn" => .ok ⟨[CTL_KERN, KERN_SOMINCONN], .Int32, true⟩
    | "nosuidcoredump" => .ok ⟨[CTL_KERN, KERN_NOSUIDCOREDUMP], .Int32, true⟩
    | "fsync" => .ok ⟨[CTL_KERN, KERN_FSYNC], .Int32, false⟩
    | "sysvmsg" => .ok ⟨[CTL_KERN, KERN_SYSVMSG], .Int32, false⟩
    | "sysvsem" => .ok ⟨[CTL_KERN, KERN_SYSVSEM], .Int32, false⟩
    | "sysvshm" => .ok ⟨[CTL_KERN, KERN_SYSVSHM], .Int32, false⟩
    | "msgbufsize" => .ok ⟨[CTL_KERN, KERN_MSGBUFSIZE], .Int32, false⟩
    | "malloc" =>
      match names.get? 1 with
      | none => .panicked oobMsg
      | some n1 =>
        match n1 with
        | "bucket" =>
          .ok ⟨[CTL_KERN, KERN_MALLOCSTATS, KERN_MALLOC_BUCKET], .Node, false⟩
        | "buckets" =>
          .ok ⟨[CTL_KERN, KERN_MALLOCSTATS, KERN_MALLOC_BUCKETS], .SysString, false⟩
        | "kmemnames" =>
          .ok ⟨[CTL_KERN, KERN_MALLOCSTATS, KERN_MALLOC_KMEMNAMES], .SysString, false⟩
        | "kmemstat" =>
          .ok ⟨[CTL_KERN, KERN_MALLOCSTATS, KERN_MALLOC_KMEMSTAT], .Node, false⟩
        | _ => .err .invalidArgument
    | "cp_time" => .ok ⟨[CTL_KERN, KERN_CPTIME], .Int32, false⟩
    | "nchstats" =>
      match names.get? 1 with
      | none => .panicked oobMsg
      | some n1 =>
        match n1 with
        | "good_hits" => .panicked unimplMsg
        | "negative_hits" => .panicked unimplMsg
        | "bad_hits" => .panicked unimplMsg
        | "false_hits" => .panicked unimplMsg
        | "misses" => .panicked unimplMsg
        | "long_names" => .panicked unimplMsg
        | "pass2" => .panicked unimplMsg
        | "2passes" => .panicked unimplMsg
        | "ncs_revhits" => .panicked unimplMsg
        | "ncs_revmiss" => .panicked unimplMsg
        | "ncs_dothits" => .panicked unimplMsg
        | "nch_dotdothits" => .panicked unimplMsg
        | _ => .err .invalidArgument
    | "forkstat" =>
      match names.get? 1 with
      | none => .panicked oobMsg
      | some n1 =>
        match n1 with
        | "forks" => .panicked unimplMsg
        | "vforks" => .panicked unimplMsg
        | "tforks" => .panicked unimplMsg
        | "kthreads" => .panicked unimplMsg
        | "fork_pages" => .panicked unimplMsg
        | "vfork_pages" => .panicked unimplMsg
        | "tfork_pages" => .panicked unimplMsg
        | "kthread_pages" => .panicked unimplMsg
        | _ => .err .invalidArgument
    | "nselcoll" => .ok ⟨[CTL_KERN, KERN_NSELCOLL], .Int32, false⟩
    | "tty" =>
      match names.get? 1 with
      | none => .panicked oobMsg
      | some n1 =>
        match n1 with
        | "tk_nin" => .panicked unimplMsg
        | "tk_nout" => .panicked unimplMsg
        | "tk_rawcc" => .panicked unimplMsg
        | "tk_cancc" => .panicked unimplMsg
        | _ => .err .invalidArgument
    | "ccpu" => .ok ⟨[CTL_KERN, KERN_CCPU], .Int32, false⟩
    | "fscale" => .ok ⟨[CTL_KERN, KERN_FSCALE], .Int32, false⟩
    | "nprocs" => .ok ⟨[CTL_KERN, KERN_NPROCS], .Int32, false⟩
    | "msgbuf" => .ok ⟨[CTL_KERN, KERN_MSGBUF], .Int32, false⟩
    | "pool" => .ok ⟨[CTL_KERN, KERN_POOL], .Int32, false⟩
    | "stackgap_random" => .ok ⟨[CTL_KERN, KERN_STACKGAPRANDOM], .Int32, false⟩
    | "sysvipc_info" => .ok ⟨[CTL_KERN, KERN_SYSVIPC_INFO], .Int32, false⟩
    | "allowkmem" => .ok ⟨[CTL_KERN, KERN_ALLOWKMEM], .Int32, true⟩
    | "splassert" => .ok ⟨[CTL_KERN, KERN_SPLASSERT], .Int32, true⟩
    | "procargs" => .ok ⟨[CTL_KERN, KERN_PROC_ARGS], .Node, false⟩
    | "nfiles" => .ok ⟨[CTL_KERN, KERN_NFILES], .Int32, false⟩
    | "ttycount" => .ok ⟨[CTL_KERN, KERN_TTYCOUNT], .Int32, false⟩
    | "numvnodes" => .ok ⟨[CTL_KERN, KERN_NUMVNODES], .Int32, false⟩
    | "mbstat" => .ok ⟨[CTL_KERN, KERN_MBSTAT], .SysStruct, false⟩
    | "witness" => .ok ⟨[CTL_KERN, KERN_WITNESS], .Node, false⟩
    | "seminfo" =>
      match names.get? 1 with
      | none => .panicked oobMsg
      | some n1 =>
        match n1 with
        | "semmni" => .ok ⟨[CTL_KERN, KERN_SEMINFO, KERN_SEMINFO_SEMMNI], .Int32, true⟩
        | "semmns" => .ok ⟨[CTL_KERN, KERN_SEMINFO, KERN_SEMINFO_SEMMNS], .Int32, true⟩
        | "semmsl" => .ok ⟨[CTL_KERN, KERN_SEMINFO, KERN_SEMINFO_SEMMSL], .Int32, true⟩
        | "semopm" => .ok ⟨[CTL_KERN, KERN_SEMINFO, KERN_SEMINFO_SEMOPM], .Int32, true⟩
        | "semume" => .ok ⟨[CTL_KERN, KERN_SEMINFO, KERN_SEMINFO_SEMUME], .Int32, false⟩
        | "semusz" => .ok ⟨[CTL_KERN, KERN_SEMINFO, KERN_SEMINFO_SEMUSZ], .Int32, false⟩
        | "semvmx" => .ok ⟨[CTL_KERN, KERN_SEMINFO, KERN_SEMINFO_SEMVMX], .Int32, false⟩
        | "semaem" => .ok ⟨[CTL_KERN, KERN_SEMINFO, KERN_SEMINFO_SEMAEM], .Int32, false⟩
        | _ => .err .invalidArgument
    | "shminfo" =>
      match names.get? 1 with
      | none => .panicked oobMsg
      | some n1 =>
        match n1 with
        | "shmmax" => .ok ⟨[CTL_KERN, KERN_SHMINFO, KERN_SHMINFO_SHMMAX], .Int32, true⟩
        | "shmmin" => .ok ⟨[CTL_KERN, KERN_SHMINFO, KERN_SHMINFO_SHMMIN], .Int32, true⟩
        | "shmmni" => .ok ⟨[CTL_KERN, KERN_SHMINFO, KERN_SHMINFO_SHMMNI], .Int32, true⟩
        | "shmseg" => .ok ⟨[CTL_KERN, KERN_SHMINFO, KERN_SHMINFO_SHMSEG], .Int32, true⟩
        | "shmall" => .ok ⟨[CTL_KERN, KERN_SHMINFO, KERN_SHMINFO_SHMALL], .Int32, true⟩
        | _ => .err .invalidArgument
    | "intrcnt" => .ok ⟨[CTL_KERN, KERN_INTRCNT], .Node, false⟩
    | "watchdog" =>
      match names.get? 1 with
      | none => .panicked oobMsg
      | some n1 =>
        match n1 with
        | "period" => .ok ⟨[CTL_KERN, KERN_WATCHDOG, KERN_WATCHDOG_PERIOD], .Int32, true⟩
        | "auto" => .ok ⟨[CTL_KERN, KERN_WATCHDOG, KERN_WATCHDOG_AUTO], .Int32, true⟩
        | _ => .err .invalidArgument
    | "proc" =>
      match names.get? 1 with
      | none => .panicked oobMsg
      | some n1 =>
        match n1 with
        | "" => .panicked unimplMsg
        | _ => .err .invalidArgument
    | "maxclusters" => .ok ⟨[CTL_KERN, KERN_MAXCLUSTERS], .Int32, true⟩
    | "evcount" => .ok ⟨[CTL_KERN, KERN_EVCOUNT], .Int32, false⟩
    | "timecounter" =>
      match names.get? 1 with
      | none => .panicked oobMsg
      | some n1 =>
        match n1 with
        | "tick" => .ok ⟨[CTL_KERN, KERN_TIMECOUNTER, KERN_TIMECOUNTER_TICK], .Int32, false⟩
        | "timestepwarnings" =>
          .ok ⟨[CTL_KERN, KERN_TIMECOUNTER, KERN_TIMECOUNTER_TIMESTEPWARNINGS], .Int32, true⟩
        | "hardware" =>
          .ok ⟨[CTL_KERN, KERN_TIMECOUNTER, KERN_TIMECOUNTER_HARDWARE], .SysString, true⟩
        | "choice" =>
          .ok ⟨[CTL_KERN, KERN_TIMECOUNTER, KERN_TIMECOUNTER_CHOICE], .SysString, false⟩
        | _ => .err .invalidArgument
    | "maxlocksperuid" => .ok ⟨[CTL_KERN, KERN_MAXLOCKSPERUID], .Int32, true⟩
    | "cp_time2" => .ok ⟨[CTL_KERN, KERN_CPTIME2], .UInt64Slice, false⟩
    | "bufcachepercent" => .ok ⟨[CTL_KERN, KERN_CACHEPCT], .Int32, true⟩
    | "file" => .ok ⟨[CTL_KERN, KERN_FILE], .SysStruct, false⟩
    | "wxabort" => .ok ⟨[CTL_KERN, KERN_WXABORT], .Int32, true⟩
    | "consdev" => .ok ⟨[CTL_KERN, KERN_CONSDEV], .DevT, false⟩
    | "netlivelocks" => .ok ⟨[CTL_KERN, KERN_NETLIVELOCKS], .Int32, false⟩
    | "pool_debug" => .ok ⟨[CTL_KERN, KERN_POOL_DEBUG], .Int32, false⟩
    | "pool_cwd" => .ok ⟨[CTL_KERN, KERN_PROC_CWD], .Int32, false⟩
    | "proc_nobroadcastkill" => .ok ⟨[CTL_KERN, KERN_PROC_NOBROADCASTKILL], .Int32, false⟩
    | "proc_vmmap" => .ok ⟨[CTL_KERN, KERN_PROC_VMMAP], .Int32, false⟩
    | "global_ptrace" => .ok ⟨[CTL_KERN, KERN_GLOBAL_PTRACE], .Int32, false⟩
    -- The source has two arms matching the empty string; as in Rust the
    -- first one (KERN_CONSBUFSIZE) wins and the KERN_CONSBUF arm is
    -- unreachable, so only the first is transcribed.
    | "" => .ok ⟨[CTL_KERN, KERN_CONSBUFSIZE], .Int32, false⟩
    | "audio" =>
      match names.get? 1 with
      | none => .panicked oobMsg
      | some n1 =>
        match n1 with
        | "record" => .ok ⟨[CTL_KERN, KERN_AUDIO, KERN_AUDIO_RECORD], .Int32, true⟩
        | _ => .err .invalidArgument
    | _ => .err .invalidArgument

/-- `parse_mib_vm` from lib.rs. -/
def parse_mib_vm (names : List String) : ROut Sysctl :=
  match names.get? 0 with
  | none => .panicked oobMsg
  | some n0 =>
    match n0 with
    | "vmmeter" => .ok ⟨[CTL_VM, VM_METER], .SysStruct, false⟩
    | "loadavg" => .ok ⟨[CTL_VM, VM_LOADAVG], .SysStruct, false⟩
    | "psstrings" => .ok ⟨[CTL_VM, VM_PSSTRINGS], .SysStruct, false⟩
    | "uvmexp" => .ok ⟨[CTL_VM, VM_UVMEXP], .SysStruct, false⟩
    | "swapencrypt" => .ok ⟨[CTL_VM, VM_SWAPENCRYPT], .SysStruct, true⟩
    | "nkmempages" => .ok ⟨[CTL_VM, VM_NKMEMPAGES], .Int32, false⟩
    | "anonmin" => .ok ⟨[CTL_VM, VM_ANONMIN], .Int32, true⟩
    | "vtextmin" => .ok ⟨[CTL_VM, VM_VTEXTMIN], .Int32, true⟩
    | "vnodemin" => .ok ⟨[CTL_VM, VM_VNODEMIN], .Int32, true⟩
    | "maxslp" => .ok ⟨[CTL_VM, VM_MAXSLP], .Int32, false⟩
    | "uspace" => .ok ⟨[CTL_VM, VM_USPACE], .Int32, false⟩
    | "malloc_conf" => .ok ⟨[CTL_VM, VM_MALLOC_CONF], .SysString, true⟩
    | _ => .err .invalidArgument

/-- `parse_mib_fs` from lib.rs. The source always constructs the result
with `SysctlType::Int32` and `changeable = true`. -/
def parse_mib_fs (names : List String) : ROut Sysctl :=
  match names.get? 0 with
  | none => .panicked oobMsg
  | some n0 =>
    match n0 with
    | "posix" =>
      match names.get? 1 with
      | none => .panicked oobMsg
      | some n1 =>
        match n1 with
        | "setuid" => .ok ⟨[CTL_FS, FS_POSIX, FS_POSIX_SETUID], .Int32, true⟩
        | _ => .err .invalidArgument
    | _ => .err .invalidArgument

/-- `get_addr_family` from lib.rs. -/
def get_addr_family (name : String) : ROut Int :=
  match name with
  | "unix" => .ok AF_UNIX
  | "local" => .ok AF_LOCAL
  | "inet" => .ok AF_INET
  | "implink" => .ok AF_IMPLINK
  | "pup" => .ok AF_PUP
  | "chaos" => .ok AF_CHAOS
  | "ns" => .ok AF_NS
  | "iso" => .ok AF_ISO
  | "osi" => .ok AF_OSI
  | "ecma" => .ok AF_ECMA
  | "datakit" => .ok AF_DATAKIT
  | "ccitt" => .ok AF_CCITT
  | "sna" => .ok AF_SNA
  | "decnet" => .ok AF_DECnet
  | "dli" => .ok AF_DLI
  | "lat" => .ok AF_LAT
  | "hylink" => .ok AF_HYLINK
  | "appletalk" => .ok AF_APPLETALK
  | "route" => .ok AF_ROUTE
  | "link" => .ok AF_LINK
  | "coip" => .ok AF_COIP
  | "cnt" => .ok AF_CNT
  | "ipx" => .ok AF_IPX
  | "inet6" => .ok AF_INET6
  | "isdn" => .ok AF_ISDN
  | "e164" => .ok AF_E164
  | "natm" => .ok AF_NATM
  | "encap" => .ok AF_ENCAP
  | "sip" => .ok AF_SIP
  | "key" => .ok AF_KEY
  | "bluetooth" => .ok AF_BLUETOOTH
  | "mpls" => .ok AF_MPLS
  | "0" => .ok 0
  | _ => .err .invalidArgument

/-- `parse_mib_net` from lib.rs. Noteworthy transcription points, all
faithful to the source: the `route` arm never examines `names[1]` (it
pushes the protocol number 0 directly and reads the address family from
`names[2]` and the request from `names[3]`); the `dump` arm pushes the
constant table 0 on both sides of its length test; the `inet`, `inet6`
and `mpls` arms set `changeable = true` before dispatching, with a few
leaves setting it back to false; and the `pipex.outq` arm matches
`names[3]`, not `names[2]`, for its `ifq` test. -/
def parse_mib_net (names : List String) : ROut Sysctl :=
  match names.get? 0 with
  | none => .panicked oobMsg
  | some n0 =>
    match n0 with
    | "route" =>
      match names.get? 2 with
      | none => .panicked oobMsg
      | some fam =>
        match get_addr_family fam with
        | .err e => .err e
        | .panicked m => .panicked m
        | .ok af =>
          match names.get? 3 with
          | none => .panicked oobMsg
          | some n3 =>
            match n3 with
            | "dump" =>
              if names.length > 4 then
                .ok ⟨[CTL_NET, PF_ROUTE, 0, af, NET_RT_DUMP, 0], .Int32, false⟩
              else
                .ok ⟨[CTL_NET, PF_ROUTE, 0, af, NET_RT_DUMP, 0], .Int32, false⟩
            | "flags" => .ok ⟨[CTL_NET, PF_ROUTE, 0, af, NET_RT_FLAGS], .Int32, false⟩
            | "iflist" => .ok ⟨[CTL_NET, PF_ROUTE, 0, af, NET_RT_IFLIST], .Int32, false⟩
            | "ifnames" => .ok ⟨[CTL_NET, PF_ROUTE, 0, af, NET_RT_IFNAMES], .Int32, false⟩
            | "stats" => .ok ⟨[CTL_NET, PF_ROUTE, 0, af, NET_RT_STATS], .Int32, false⟩
            | "table" => .ok ⟨[CTL_NET, PF_ROUTE, 0, af, NET_RT_TABLE], .Int32, false⟩
            | _ => .err .invalidArgument
    | "inet" =>
      match names.get? 1 with
      | none => .panicked oobMsg
      | some n1 =>
        match n1 with
        | "ah" =>
          match names.get? 2 with
          | none => .panicked oobMsg
          | some n2 =>
            match n2 with
            | "enable" => .ok ⟨[CTL_NET, PF_INET, IPPROTO_AH, 1], .Int32, true⟩
            | "stats" => .ok ⟨[CTL_NET, PF_INET, IPPROTO_AH, 2], .Int32, true⟩
            | _ => .err .invalidArgument
        | "bpf" =>
          match names.get? 2 with
          | none => .panicked oobMsg
          | some n2 =>
            match n2 with
            | "bufsize" => .ok ⟨[CTL_NET, PF_INET, pseudo_AF_HDRCMPLT, 1], .Int32, true⟩
            | "maxbufsize" => .ok ⟨[CTL_NET, PF_INET, pseudo_AF_HDRCMPLT, 2], .Int32, true⟩
            | _ => .err .invalidArgument
        | "carp" =>
          match names.get? 2 with
          | none => .panicked oobMsg
          | some n2 =>
            match n2 with
            | "allow" => .ok ⟨[CTL_NET, PF_INET, IPPROTO_CARP, 1], .Int32, true⟩
            | "log" => .ok ⟨[CTL_NET, PF_INET, IPPROTO_CARP, 3], .Int32, true⟩
            | "preempt" => .ok ⟨[CTL_NET, PF_INET, IPPROTO_CARP, 2], .Int32, true⟩
            | "stats" => .ok ⟨[CTL_NET, PF_INET, IPPROTO_CARP, 4], .Int32, true⟩
            | _ => .err .invalidArgument
        | "divert" =>
          match names.get? 2 with
          | none => .panicked oobMsg
          | some n2 =>
            match n2 with
            | "recvspace" => .ok ⟨[CTL_NET, PF_INET, IPPROTO_DIVERT, 1], .Int32, true⟩
            | "sendspace" => .ok ⟨[CTL_NET, PF_INET, IPPROTO_DIVERT, 2], .Int32, true⟩
            | "stats" => .ok ⟨[CTL_NET, PF_INET, IPPROTO_DIVERT, 3], .Int32, true⟩
            | _ => .err .invalidArgument
        | "esp" =>
          match names.get? 2 with
          | none => .panicked oobMsg
          | some n2 =>
            match n2 with
            | "enable" => .ok ⟨[CTL_NET, PF_INET, IPPROTO_ESP, 1], .Int32, true⟩
            | "udpencap" => .ok ⟨[CTL_NET, PF_INET, IPPROTO_ESP, 2], .Int32, true⟩
            | "udpencap_port" => .ok ⟨[CTL_NET, PF_INET, IPPROTO_ESP, 3], .Int32, true⟩
            | "stats" => .ok ⟨[CTL_NET, PF_INET, IPPROTO_ESP, 4], .Int32, true⟩
            | _ => .err .invalidArgument
        | "etherip" =>
          match names.get? 2 with
          | none => .panicked oobMsg
          | some n2 =>
            match n2 with
            | "allow" => .ok ⟨[CTL_NET, PF_INET, IPPROTO_ETHERIP, 1], .Int32, true⟩
            | "stats" => .ok ⟨[CTL_NET, PF_INET, IPPROTO_ETHERIP, 2], .Int32, true⟩
            | _ => .err .invalidArgument
        | "gre" =>
          match names.get? 2 with
          | none => .panicked oobMsg
          | some n2 =>
            match n2 with
            | "allow" => .ok ⟨[CTL_NET, PF_INET, IPPROTO_GRE, 1], .Int32, true⟩
            | "wccp" => .ok ⟨[CTL_NET, PF_INET, IPPROTO_GRE, 2], .Int32, true⟩
            | _ => .err .invalidArgument
        | "icmp" =>
          match names.get? 2 with
          | none => .panicked oobMsg
          | some n2 =>
            match n2 with
            | "bmcastecho" => .ok ⟨[CTL_NET, PF_INET, IPPROTO_ICMP, 2], .Int32, true⟩
            | "errppslimit" => .ok ⟨[CTL_NET, PF_INET, IPPROTO_ICMP, 3], .Int32, true⟩
            | "maskrepl" => .ok ⟨[CTL_NET, PF_INET, IPPROTO_ICMP, 1], .Int32, true⟩
            | "rediraccept" => .ok ⟨[CTL_NET, PF_INET, IPPROTO_ICMP, 4], .Int32, true⟩
            | "redirtimeout" => .ok ⟨[CTL_NET, PF_INET, IPPROTO_ICMP, 5], .Int32, true⟩
            | "stats" => .ok ⟨[CTL_NET, PF_INET, IPPROTO_ICMP, 7], .SysStruct, false⟩
            | "tstamprepl" => .ok ⟨[CTL_NET, PF_INET, IPPROTO_ICMP, 6], .Int32, true⟩
            | _ => .err .invalidArgument
        | "ip" =>
          match names.get? 2 with
          | none => .panicked oobMsg
          | some n2 =>
            match n2 with
            | "arpdown" => .ok ⟨[CTL_NET, PF_INET, IPPROTO_IP, 40], .Int32, true⟩
            | "arptimeout" => .ok ⟨[CTL_NET, PF_INET, IPPROTO_IP, 39], .Int32, true⟩
            | "directed-broadcast" => .ok ⟨[CTL_NET, PF_INET, IPPROTO_IP, 6], .Int32, true⟩
            | "encdebug" => .ok ⟨[CTL_NET, PF_INET, IPPROTO_IP, 12], .Int32, true⟩
            | "forwarding" => .ok ⟨[CTL_NET, PF_INET, IPPROTO_IP, 1], .Int32, true⟩
            | "ifq" =>
              match names.get? 3 with
              | none => .panicked oobMsg
              | some n3 =>
                match n3 with
                | "congestion" => .ok ⟨[CTL_NET, PF_INET, IPPROTO_IP, 30, 4], .Node, true⟩
                | "drops" => .ok ⟨[CTL_NET, PF_INET, IPPROTO_IP, 30, 3], .Node, true⟩
                | "len" => .ok ⟨[CTL_NET, PF_INET, IPPROTO_IP, 30, 1], .Node, true⟩
                | "maxlen" => .ok ⟨[CTL_NET, PF_INET, IPPROTO_IP, 30, 2], .Node, true⟩
                | _ => .err .invalidArgument
            | "ipsec-allocs" => .ok ⟨[CTL_NET, PF_INET, IPPROTO_IP, 18], .Int32, true⟩
            | "ipsec-auth-alg" => .ok ⟨[CTL_NET, PF_INET, IPPROTO_IP, 26], .SysString, true⟩
            | "ipsec-bytes" => .ok ⟨[CTL_NET, PF_INET, IPPROTO_IP, 20], .Int32, true⟩
            | "ipsec-comp-alg" => .ok ⟨[CTL_NET, PF_INET, IPPROTO_IP, 29], .SysString, true⟩
            | "ipsec-enc-alg" => .ok ⟨[CTL_NET, PF_INET, IPPROTO_IP, 25], .SysString, true⟩
            | "ipsec-expire-acquire" => .ok ⟨[CTL_NET, PF_INET, IPPROTO_IP, 14], .Int32, true⟩
            | "ipsec-firstuse" => .ok ⟨[CTL_NET, PF_INET, IPPROTO_IP, 24], .Int32, true⟩
            | "ipsec-invalid-life" => .ok ⟨[CTL_NET, PF_INET, IPPROTO_IP, 15], .Int32, true⟩
            | "ipsec-pfs" => .ok ⟨[CTL_NET, PF_INET, IPPROTO_IP, 16], .Int32, true⟩
            | "ipsec-soft-allocs" => .ok ⟨[CTL_NET, PF_INET, IPPROTO_IP, 17], .Int32, true⟩
            | "ipsec-soft-bytes" => .ok ⟨[CTL_NET, PF_INET, IPPROTO_IP, 19], .Int32, true⟩
            | "ipsec-soft-firstuse" => .ok ⟨[CTL_NET, PF_INET, IPPROTO_IP, 23], .Int32, true⟩
            | "ipsec-soft-timeout" => .ok ⟨[CTL_NET, PF_INET, IPPROTO_IP, 22], .Int32, true⟩
            | "ipsec-timeout" => .ok ⟨[CTL_NET, PF_INET, IPPROTO_IP, 21], .Int32, true⟩
            | "maxqueue" => .ok ⟨[CTL_NET, PF_INET, IPPROTO_IP, 11], .Int32, true⟩
            | "mforwarding" => .ok ⟨[CTL_NET, PF_INET, IPPROTO_IP, 31], .Int32, true⟩
            | "mtudisc" => .ok ⟨[CTL_NET, PF_INET, IPPROTO_IP, 27], .Int32, true⟩
            | "mtudisctimeout" => .ok ⟨[CTL_NET, PF_INET, IPPROTO_IP, 28], .Int32, true⟩
            | "multipath" => .ok ⟨[CTL_NET, PF_INET, IPPROTO_IP, 32], .Int32, true⟩
            | "portfirst" => .ok ⟨[CTL_NET, PF_INET, IPPROTO_IP, 7], .Int32, true⟩
            | "pirthifirst" => .ok ⟨[CTL_NET, PF_INET, IPPROTO_IP, 9], .Int32, true⟩
            | "porthilast" => .ok ⟨[CTL_NET, PF_INET, IPPROTO_IP, 10], .Int32, true⟩
            | "portlast" => .ok ⟨[CTL_NET, PF_INET, IPPROTO_IP, 8], .Int32, true⟩
            | "redirect" => .ok ⟨[CTL_NET, PF_INET, IPPROTO_IP, 2], .Int32, true⟩
            | "sourceroute" => .ok ⟨[CTL_NET, PF_INET, IPPROTO_IP, 5], .Int32, true⟩
            | "stats" => .ok ⟨[CTL_NET, PF_INET, IPPROTO_IP, 33], .SysStruct, false⟩
            | "ttl" => .ok ⟨[CTL_NET, PF_INET, IPPROTO_IP, 3], .Int32, true⟩
            | _ => .err .invalidArgument
        | "ipcomp" =>
          match names.get? 2 with
          | none => .panicked oobMsg
          | some n2 =>
            match n2 with
            | "enable" => .ok ⟨[CTL_NET, PF_INET, IPPROTO_IPCOMP, 1], .Int32, true⟩
            | "stats" => .ok ⟨[CTL_NET, PF_INET, IPPROTO_IPCOMP, 2], .Int32, true⟩
            | _ => .err .invalidArgument
        | "ipip" =>
          match names.get? 2 with
          | none => .panicked oobMsg
          | some n2 =>
            match n2 with
            | "allow" => .ok ⟨[CTL_NET, PF_INET, IPPROTO_IPIP, 1], .Int32, true⟩
            | "stats" => .ok ⟨[CTL_NET, PF_INET, IPPROTO_IPIP, 2], .Int32, true⟩
            | _ => .err .invalidArgument
        | "mobileip" =>
          match names.get? 2 with
          | none => .panicked oobMsg
          | some n2 =>
            match n2 with
            | "allow" => .ok ⟨[CTL_NET, PF_INET, IPPROTO_MOBILE, 1], .Int32, true⟩
            | _ => .err .invalidArgument
        | "tcp" =>
          match names.get? 2 with
          | none => .panicked oobMsg
          | some n2 =>
            match n2 with
            | "ackonpush" => .ok ⟨[CTL_NET, PF_INET, IPPROTO_TCP, 13], .Int32, true⟩
            | "always_keepalive" => .ok ⟨[CTL_NET, PF_INET, IPPROTO_TCP, 16], .Int32, true⟩
            | "baddynamic" => .ok ⟨[CTL_NET, PF_INET, IPPROTO_TCP, 6], .UInt32Slice, true⟩
            | "drop" => .ok ⟨[CTL_NET, PF_INET, IPPROTO_TCP, 19], .Int32, true⟩
            | "ecn" => .ok ⟨[CTL_NET, PF_INET, IPPROTO_TCP, 14], .Int32, true⟩
            | "ident" => .ok ⟨[CTL_NET, PF_INET, IPPROTO_TCP, 9], .SysStruct, false⟩
            | "keepidle" => .ok ⟨[CTL_NET, PF_INET, IPPROTO_TCP, 3], .Int32, true⟩
            | "keepinittime" => .ok ⟨[CTL_NET, PF_INET, IPPROTO_TCP, 2], .Int32, true⟩
            | "keepintvl" => .ok ⟨[CTL_NET, PF_INET, IPPROTO_TCP, 4], .Int32, true⟩
            | "mssdflt" => .ok ⟨[CTL_NET, PF_INET, IPPROTO_TCP, 11], .Int32, true⟩
            | "reasslimit" => .ok ⟨[CTL_NET, PF_INET, IPPROTO_TCP, 18], .Int32, true⟩
            | "rfc1323" => .ok ⟨[CTL_NET, PF_INET, IPPROTO_TCP, 1], .Int32, true⟩
            | "rfc3390" => .ok ⟨[CTL_NET, PF_INET, IPPROTO_TCP, 17], .Int32, true⟩
            | "rootonly" => .ok ⟨[CTL_NET, PF_INET, IPPROTO_TCP, 24], .UInt32Slice, true⟩
            | "rstppslimit" => .ok ⟨[CTL_NET, PF_INET, IPPROTO_TCP, 12], .Int32, true⟩
            | "sack" => .ok ⟨[CTL_NET, PF_INET, IPPROTO_TCP, 10], .Int32, true⟩
            | "sackholelimit" => .ok ⟨[CTL_NET, PF_INET, IPPROTO_TCP, 20], .Int32, true⟩
            | "slowhz" => .ok ⟨[CTL_NET, PF_INET, IPPROTO_TCP, 5], .Int32, false⟩
            | "stats" => .ok ⟨[CTL_NET, PF_INET, IPPROTO_TCP, 21], .SysStruct, true⟩
            | "synbucketlimit" => .ok ⟨[CTL_NET, PF_INET, IPPROTO_TCP, 16], .Int32, true⟩
            | "syncachelimit" => .ok ⟨[CTL_NET, PF_INET, IPPROTO_TCP, 15], .Int32, true⟩
            | "synhashsize" => .ok ⟨[CTL_NET, PF_INET, IPPROTO_TCP, 25], .Int32, true⟩
            | "synuselimit" => .ok ⟨[CTL_NET, PF_INET, IPPROTO_TCP, 23], .Int32, true⟩
            | _ => .err .invalidArgument
        | "udp" =>
          match names.get? 2 with
          | none => .panicked oobMsg
          | some n2 =>
            match n2 with
            | "baddynamic" => .ok ⟨[CTL_NET, PF_INET, IPPROTO_UDP, 2], .UInt32Slice, true⟩
            | "checksum" => .ok ⟨[CTL_NET, PF_INET, IPPROTO_UDP, 1], .Int32, true⟩
            | "recvspace" => .ok ⟨[CTL_NET, PF_INET, IPPROTO_UDP, 3], .Int32, true⟩
            | "rootonly" => .ok ⟨[CTL_NET, PF_INET, IPPROTO_UDP, 6], .UInt32Slice, true⟩
            | "sendspace" => .ok ⟨[CTL_NET, PF_INET, IPPROTO_UDP, 4], .Int32, true⟩
            | "stats" => .ok ⟨[CTL_NET, PF_INET, IPPROTO_UDP, 5], .SysStruct, false⟩
            | _ => .err .invalidArgument
        | _ => .err .invalidArgument
    | "inet6" =>
      match names.get? 1 with
      | none => .panicked oobMsg
      | some n1 =>
        match n1 with
        | "divert" =>
          match names.get? 2 with
          | none => .panicked oobMsg
          | some n2 =>
            match n2 with
            | "recvspace" => .ok ⟨[CTL_NET, PF_INET6, IPPROTO_DIVERT, 1], .Int32, true⟩
            | "sendspace" => .ok ⟨[CTL_NET, PF_INET6, IPPROTO_DIVERT, 2], .Int32, true⟩
            | "stats" => .ok ⟨[CTL_NET, PF_INET6, IPPROTO_DIVERT, 3], .Int32, true⟩
            | _ => .err .invalidArgument
        | "icmp6" =>
          match names.get? 2 with
          | none => .panicked oobMsg
          | some n2 =>
            match n2 with
            | "errppslimit" => .ok ⟨[CTL_NET, PF_INET6, IPPROTO_ICMPV6, 14], .Int32, true⟩
            | "mtudisc_hiwat" => .ok ⟨[CTL_NET, PF_INET6, IPPROTO_ICMPV6, 16], .Int32, true⟩
            | "mtudisc_lowat" => .ok ⟨[CTL_NET, PF_INET6, IPPROTO_ICMPV6, 17], .Int32, true⟩
            | "nd6_debug" => .ok ⟨[CTL_NET, PF_INET6, IPPROTO_ICMPV6, 18], .Int32, true⟩
            | "nd6_delay" => .ok ⟨[CTL_NET, PF_INET6, IPPROTO_ICMPV6, 8], .Int32, true⟩
            | "nd6_maxnudhint" => .ok ⟨[CTL_NET, PF_INET6, IPPROTO_ICMPV6, 15], .Int32, true⟩
            | "nd6_maxtries" => .ok ⟨[CTL_NET, PF_INET6, IPPROTO_ICMPV6, 10], .Int32, true⟩
            | "nd6_umaxtries" => .ok ⟨[CTL_NET, PF_INET6, IPPROTO_ICMPV6, 9], .Int32, true⟩
            | "redirtimeout" => .ok ⟨[CTL_NET, PF_INET6, IPPROTO_ICMPV6, 17], .Int32, true⟩
            | _ => .err .invalidArgument
        | "ip6" =>
          match names.get? 2 with
          | none => .panicked oobMsg
          | some n2 =>
            match n2 with
            | "auto_flowlabel" => .ok ⟨[CTL_NET, PF_INET6, IPPROTO_IPV6, 17], .Int32, true⟩
            | "dad_count" => .ok ⟨[CTL_NET, PF_INET6, IPPROTO_IPV6, 16], .Int32, true⟩
            | "dad_pending" => .ok ⟨[CTL_NET, PF_INET6, IPPROTO_IPV6, 49], .Int32, true⟩
            | "defmcasthlim" => .ok ⟨[CTL_NET, PF_INET6, IPPROTO_IPV6, 18], .Int32, true⟩
            | "forwarding" => .ok ⟨[CTL_NET, PF_INET6, IPPROTO_IPV6, 1], .Int32, true⟩
            | "hdrnestlimit" => .ok ⟨[CTL_NET, PF_INET6, IPPROTO_IPV6, 15], .Int32, true⟩
            | "hlim" => .ok ⟨[CTL_NET, PF_INET6, IPPROTO_IPV6, 3], .Int32, true⟩
            | "ifq" => .ok ⟨[CTL_NET, PF_INET6, IPPROTO_IPV6, 51], .Node, false⟩
            | "log_interval" => .ok ⟨[CTL_NET, PF_INET6, IPPROTO_IPV6, 14], .Int32, true⟩
            | "maxdynroutes" => .ok ⟨[CTL_NET, PF_INET6, IPPROTO_IPV6, 48], .Int32, true⟩
            | "maxfragpackets" => .ok ⟨[CTL_NET, PF_INET6, IPPROTO_IPV6, 9], .Int32, true⟩
            | "maxfrags" => .ok ⟨[CTL_NET, PF_INET6, IPPROTO_IPV6, 41], .Int32, true⟩
            | "mforwarding" => .ok ⟨[CTL_NET, PF_INET6, IPPROTO_IPV6, 42], .Int32, true⟩
            | "mtudisctimeout" => .ok ⟨[CTL_NET, PF_INET6, IPPROTO_IPV6, 50], .Int32, true⟩
            | "multicast_mtudisc" => .ok ⟨[CTL_NET, PF_INET6, IPPROTO_IPV6, 44], .Int32, true⟩
            | "multipath" => .ok ⟨[CTL_NET, PF_INET6, IPPROTO_IPV6, 43], .Int32, true⟩
            | "neighborgcthresh" => .ok ⟨[CTL_NET, PF_INET6, IPPROTO_IPV6, 45], .Int32, true⟩
            | "redirect" => .ok ⟨[CTL_NET, PF_INET6, IPPROTO_IPV6, 2], .Int32, true⟩
            | "soiikey" => .ok ⟨[CTL_NET, PF_INET6, IPPROTO_IPV6, 54], .UInt8Slice, true⟩
            | "use_deprecated" => .ok ⟨[CTL_NET, PF_INET6, IPPROTO_IPV6, 21], .Int32, true⟩
            | _ => .err .invalidArgument
        | _ => .err .invalidArgument
    | "key" =>
      match names.get? 1 with
      | none => .panicked oobMsg
      | some n1 =>
        match n1 with
        | "sadb_dump" => .ok ⟨[CTL_NET, PF_KEY, 1], .Int32, false⟩
        | "spd_dump" => .ok ⟨[CTL_NET, PF_KEY, 2], .Int32, false⟩
        | _ => .err .invalidArgument
    | "mpls" =>
      match names.get? 1 with
      | none => .panicked oobMsg
      | some n1 =>
        match n1 with
        | "mapttl_ip" => .ok ⟨[CTL_NET, PF_MPLS, MPLSCTL_MAPTTL_IP], .Int32, true⟩
        | "mapttl_ip6" => .ok ⟨[CTL_NET, PF_MPLS, MPLSCTL_MAPTTL_IP6], .Int32, true⟩
        | "maxloop_inkernel" => .ok ⟨[CTL_NET, PF_MPLS, MPLSCTL_MAXINKLOOP], .Int32, true⟩
        | "ttl" => .ok ⟨[CTL_NET, PF_MPLS, MPLSCTL_DEFTTL], .Int32, true⟩
        | _ => .err .invalidArgument
    | "pipex" =>
      match names.get? 1 with
      | none => .panicked oobMsg
      | some n1 =>
        match n1 with
        | "enable" => .ok ⟨[CTL_NET, PF_PIPEX, PIPEXCTL_ENABLE], .Int32, true⟩
        | "inq" =>
          match names.get? 2 with
          | none => .panicked oobMsg
          | some n2 =>
            match n2 with
            | "ifq" =>
              match names.get? 3 with
              | none => .panicked oobMsg
              | some n3 =>
                match n3 with
                | "congestion" => .ok ⟨[CTL_NET, PF_PIPEX, PIPEXCTL_INQ, 30, 4], .Node, false⟩
                | "drops" => .ok ⟨[CTL_NET, PF_PIPEX, PIPEXCTL_INQ, 30, 3], .Node, false⟩
                | "len" => .ok ⟨[CTL_NET, PF_PIPEX, PIPEXCTL_INQ, 30, 1], .Node, false⟩
                | "maxlen" => .ok ⟨[CTL_NET, PF_PIPEX, PIPEXCTL_INQ, 30, 2], .Node, false⟩
                | _ => .err .invalidArgument
            | _ => .err .invalidArgument
        | "outq" =>
          -- The source tests names[3], not names[2], for the "ifq"
          -- segment here, and then matches names[3] again inside.
          match names.get? 3 with
          | none => .panicked oobMsg
          | some n3 =>
            match n3 with
            | "ifq" =>
              match names.get? 3 with
              | none => .panicked oobMsg
              | some m3 =>
                match m3 with
                | "congestion" => .ok ⟨[CTL_NET, PF_PIPEX, PIPEXCTL_OUTQ, 30, 4], .Node, false⟩
                | "drops" => .ok ⟨[CTL_NET, PF_PIPEX, PIPEXCTL_OUTQ, 30, 3], .Node, false⟩
                | "len" => .ok ⟨[CTL_NET, PF_PIPEX, PIPEXCTL_OUTQ, 30, 1], .Node, false⟩
                | "maxlen" => .ok ⟨[CTL_NET, PF_PIPEX, PIPEXCTL_OUTQ, 30, 2], .Node, false⟩
                | _ => .err .invalidArgument
            | _ => .err .invalidArgument
        | _ => .err .invalidArgument
    | _ => .err .invalidArgument

/-- `parse_mib_debug` from lib.rs. -/
def parse_mib_debug (names : List String) : ROut Sysctl :=
  match names.get? 0 with
  | none => .panicked oobMsg
  | some n0 =>
    match n0 with
    | "name" => .ok ⟨[CTL_DEBUG, CTL_DEBUG_NAME], .Int32, false⟩
    | "value" => .ok ⟨[CTL_DEBUG, CTL_DEBUG_VALUE], .Int32, false⟩
    | _ => .err .invalidArgument

/-- `parse_mib_hw` from lib.rs. The source initializes its mib vector with
`Vec::new()` rather than `vec![CTL_HW]`, so unlike every sibling function
the produced addresses carry no leading top level domain code. -/
def parse_mib_hw (names : List String) : ROut Sysctl :=
  match names.get? 0 with
  | none => .panicked oobMsg
  | some n0 =>
    match n0 with
    | "machine" => .ok ⟨[HW_MACHINE], .SysString, false⟩
    | "model" => .ok ⟨[HW_MODEL], .SysString, false⟩
    | "ncpu" => .ok ⟨[HW_NCPU], .Int32, false⟩
    | "byteorder" => .ok ⟨[HW_BYTEORDER], .Int32, false⟩
    | "pagesize" => .ok ⟨[HW_PAGESIZE], .Int32, false⟩
    | "disknames" => .ok ⟨[HW_DISKNAMES], .SysString, false⟩
    | "diskstats" => .ok ⟨[HW_DISKSTATS], .SysStruct, false⟩
    | "diskcount" => .ok ⟨[HW_DISKCOUNT], .Int32, false⟩
    | "sensors" => .ok ⟨[HW_SENSORS], .Node, false⟩
    | "cpuspeed" => .ok ⟨[HW_CPUSPEED], .Int32, false⟩
    | "setperf" => .ok ⟨[HW_SETPERF], .Int32, true⟩
    | "vendor" => .ok ⟨[HW_VENDOR], .SysString, false⟩
    | "product" => .ok ⟨[HW_PRODUCT], .SysString, false⟩
    | "version" => .ok ⟨[HW_VERSION], .SysString, false⟩
    | "serialno" => .ok ⟨[HW_SERIALNO], .Int32, false⟩
    | "uuid" => .ok ⟨[HW_UUID], .SysString, false⟩
    | "physmem" => .ok ⟨[HW_PHYSMEM64], .Int64, false⟩
    | "usermem" => .ok ⟨[HW_USERMEM64], .Int64, false⟩
    | "npcufound" => .ok ⟨[HW_NCPUFOUND], .Int32, false⟩
    | "allowpowerdown" => .ok ⟨[HW_ALLOWPOWERDOWN], .Int32, true⟩
    | "perfpolicy" => .ok ⟨[HW_PERFPOLICY], .SysString, true⟩
    | "smt" => .ok ⟨[HW_SMT], .Int32, true⟩
    | "ncpuonline" => .ok ⟨[HW_NCPUONLINE], .Int32, false⟩
    | _ => .err .invalidArgument

/-- `parse_mib_machdep` from lib.rs: every leaf is Int32 and changeable. -/
def parse_mib_machdep (names : List String) : ROut Sysctl :=
  match names.get? 0 with
  | none => .panicked oobMsg
  | some n0 =>
    match n0 with
    | "allowaperture" => .ok ⟨[CTL_MACHDEP, MACHDEP_ALLOWAPERTURE], .Int32, true⟩
    | "kbdreset" => .ok ⟨[CTL_MACHDEP, MACHDEP_KBDRESET], .Int32, true⟩
    | "lidaction" => .ok ⟨[CTL_MACHDEP, MACHDEP_LIDACTION], .Int32, true⟩
    | "pwraction" => .ok ⟨[CTL_MACHDEP, MACHDEP_PWRACTION], .Int32, true⟩
    | _ => .err .invalidArgument

/-- `parse_mib_ddb` from lib.rs: every leaf is Int32 and changeable. -/
def parse_mib_ddb (names : List String) : ROut Sysctl :=
  match names.get? 0 with
  | none => .panicked oobMsg
  | some n0 =>
    match n0 with
    | "radix" => .ok ⟨[CTL_DDB, DBCTL_RADIX], .Int32, true⟩
    | "max_width" => .ok ⟨[CTL_DDB, DBCTL_MAXWIDTH], .Int32, true⟩
    | "max_line" => .ok ⟨[CTL_DDB, DBCTL_MAXLINE], .Int32, true⟩
    | "tab_stop_width" => .ok ⟨[CTL_DDB, DBCTL_TABSTOP], .Int32, true⟩
    | "panic" => .ok ⟨[CTL_DDB, DBCTL_PANIC], .Int32, true⟩
    | "console" => .ok ⟨[CTL_DDB, DBCTL_CONSOLE], .Int32, true⟩
    | "log" => .ok ⟨[CTL_DDB, DBCTL_LOG], .Int32, true⟩
    | "trigger" => .ok ⟨[CTL_DDB, DBCTL_TRIGGER], .Int32, true⟩
    | "profile" => .ok ⟨[CTL_DDB, DBCTL_PROFILE], .Int32, true⟩
    | _ => .err .invalidArgument

/-- `parse_mib_vfs` from lib.rs. -/
def parse_mib_vfs (names : List String) : ROut Sysctl :=
  match names.get? 0 with
  | none => .panicked oobMsg
  | some n0 =>
    match n0 with
    | "mounts" => .ok ⟨[CTL_VFS, 0], .Int32, false⟩
    | "ffs" =>
      match names.get? 1 with
      | none => .panicked oobMsg
      | some n1 =>
        match n1 with
        | "max_softdeps" => .ok ⟨[CTL_VFS, 1, FFS_MAX_SOFTDEPS], .Int32, true⟩
        | "sd_tickdelay" => .ok ⟨[CTL_VFS, 1, FFS_SD_TICKDELAY], .Int32, true⟩
        | "sd_worklist_push" => .ok ⟨[CTL_VFS, 1, FFS_SD_WORKLIST_PUSH], .Int32, true⟩
        | "sd_blk_limit_push" => .ok ⟨[CTL_VFS, 1, FFS_SD_BLK_LIMIT_PUSH], .Int32, true⟩
        | "sd_ino_limit_push" => .ok ⟨[CTL_VFS, 1, FFS_SD_INO_LIMIT_PUSH], .Int32, true⟩
        | "sd_blk_limit_hit" => .ok ⟨[CTL_VFS, 1, FFS_SD_BLK_LIMIT_HIT], .Int32, true⟩
        | "sd_ino_limit_hit" => .ok ⟨[CTL_VFS, 1, FFS_SD_INO_LIMIT_HIT], .Int32, true⟩
        | "sd_sync_limit_hit" => .ok ⟨[CTL_VFS, 1, FFS_SD_SYNC_LIMIT_HIT], .Int32, true⟩
        | "sd_indir_blk_ptrs" => .ok ⟨[CTL_VFS, 1, FFS_SD_INDIR_BLK_PTRS], .Int32, true⟩
        | "sd_inode_bitmap" => .ok ⟨[CTL_VFS, 1, FFS_SD_INODE_BITMAP], .Int32, true⟩
        | "sd_direct_blk_ptrs" => .ok ⟨[CTL_VFS, 1, FFS_SD_DIRECT_BLK_PTRS], .Int32, true⟩
        | "sd_dir_entry" => .ok ⟨[CTL_VFS, 1, FFS_SD_DIR_ENTRY], .Int32, true⟩
        | "dirhash_dirsize" => .ok ⟨[CTL_VFS, 1, FFS_DIRHASH_DIRSIZE], .Int32, true⟩
        | "dirhash_maxmem" => .ok ⟨[CTL_VFS, 1, FFS_DIRHASH_MAXMEM], .Int32, true⟩
        | "dirhash_mem" => .ok ⟨[CTL_VFS, 1, FFS_DIRHASH_MEM], .Int32, false⟩
        | _ => .err .invalidArgument
    | "nfs" =>
      match names.get? 1 with
      | none => .panicked oobMsg
      | some n1 =>
        match n1 with
        | "nfsstats" => .ok ⟨[CTL_VFS, 3, NFS_NFSSTATS], .SysStruct, true⟩
        | "iothreads" => .ok ⟨[CTL_VFS, 3, NFS_NIOTHREADS], .Int32, true⟩
        | _ => .err .invalidArgument
    | "mfs" => .ok ⟨[CTL_VFS, 4], .Int32, false⟩
    | "msdos" => .ok ⟨[CTL_VFS, 5], .Int32, false⟩
    | "ntfs" => .ok ⟨[CTL_VFS, 7], .Int32, false⟩
    | "udf" => .ok ⟨[CTL_VFS, 14], .Int32, false⟩
    | "cd9660" => .ok ⟨[CTL_VFS, 15], .Int32, false⟩
    | "ext2fs" => .ok ⟨[CTL_VFS, 18], .Int32, false⟩
    | "fuse" =>
      match names.get? 1 with
      | none => .panicked oobMsg
      | some n1 =>
        match n1 with
        | "fusefs_open_devices" => .ok ⟨[CTL_VFS, 19, FUSEFS_OPENDEVS], .Int32, false⟩
        | "fusefs_fbufs_in" => .ok ⟨[CTL_VFS, 19, FUSEFS_INBUFS], .Int32, false⟩
        | "fusefs_fbufs_wait" => .ok ⟨[CTL_VFS, 19, FUSEFS_WAITBUFS], .Int32, false⟩
        | "fusefs_pool_pages" => .ok ⟨[CTL_VFS, 19, FUSEFS_POOL_NBPAGES], .Int32, false⟩
        | _ => .err .invalidArgument
    | _ => .err .invalidArgument

/-- `get_sysctl` from lib.rs: dispatch on the first segment, handing the
remaining slice to the per domain function. -/
def get_sysctl (names : List String) : ROut Sysctl :=
  match names.get? 0 with
  | none => .panicked oobMsg
  | some n0 =>
    match n0 with
    | "kern" => parse_mib_kern (names.drop 1)
    | "vm" => parse_mib_vm (names.drop 1)
    | "fs" => parse_mib_fs (names.drop 1)
    | "net" => parse_mib_net (names.drop 1)
    | "debug" => parse_mib_debug (names.drop 1)
    | "hw" => parse_mib_hw (names.drop 1)
    | "machdep" => parse_mib_machdep (names.drop 1)
    | "ddb" => parse_mib_ddb (names.drop 1)
    | "vfs" => parse_mib_vfs (names.drop 1)
    | _ => .err .invalidArgument

/-- `parse_mib_str` from lib.rs: split the input on the assignment and
hierarchy delimiters in one pass and resolve the resulting segment list. -/
def parse_mib_str (name : List Char) : ROut Sysctl :=
  get_sysctl ((splitChars name).map (fun cs => String.mk cs))

/-- One invocation of the external kernel primitive `libc::sysctl`, as
issued by `sysctl_raw`: the address array and its length, whether the
output and input pointers passed are null, and the input buffer length
argument. Buffer contents and the in/out size holder are outside the
scope of the claims and are not modelled. -/
structure KernelCall where
  mib : List Int
  miblen : Nat
  oldpNull : Bool
  newpNull : Bool
  newlen : Nat
deriving DecidableEq, Repr

/-- What the kernel stub answers one call with: the return value of
`libc::sysctl` and the errno observed afterwards when it is negative. -/
structure KernelReply where
  res : Int
  errno : Int

/-- The `newp_len` argument `sysctl_raw` always passes:
`CTL_MAXNAME as usize * mem::size_of::<*mut c_void>()` with 8 byte
pointers, so 12 * 8. -/
def newpLen : Nat := 96

/-- `sysctl_raw` from lib.rs, instrumented with a call counting kernel
stub. `kernel` answers each issued call; the function returns the result
of `sysctl_raw` together with the list of kernel calls issued, in order.
The source resolves the name, and only when the resolved `value_type` is
`SysString` first issues a size probe with null output and null input
pointers; a negative probe result returns `Error::Sys(errno)` at once.
Otherwise, and after a successful probe, it issues the real call with the
caller supplied pointers. -/
def sysctl_raw (kernel : KernelCall → KernelReply) (name : List Char)
    (oldpNull newpNull : Bool) : ROut Unit × List KernelCall :=
  match parse_mib_str name with
  | .err e => (.err e, [])
  | .panicked m => (.panicked m, [])
  | .ok sysctl_s =>
    let mib_len := sysctl_s.mib.length
    if sysctl_s.value_type = SysctlType.SysString then
      let probe : KernelCall := ⟨sysctl_s.mib, mib_len, true, true, 0⟩
      let r := kernel probe
      if r.res < 0 then
        (.err (.sys r.errno), [probe])
      else
        let main : KernelCall := ⟨sysctl_s.mib, mib_len, oldpNull, newpNull, newpLen⟩
        let r2 := kernel main
        (if r2.res < 0 then .err (.sys r2.errno) else .ok (), [probe, main])
    else
      let main : KernelCall := ⟨sysctl_s.mib, mib_len, oldpNull, newpNull, newpLen⟩
      let r := kernel main
      (if r.res < 0 then .err (.sys r.errno) else .ok (), [main])

/-- Outcome of one codec conversion from value.rs: either a value or an
aborted process (the body is the `unimplemented` macro). -/
inductive CodecOutcome (α : Type) where
  | ok : α → CodecOutcome α
  | panicked : CodecOutcome α
deriving DecidableEq, Repr

/-- `<i32 as SysctlValue>::to_sysctl` from value.rs: `unimplemented!()`. -/
def i32_to_sysctl (_v : Int) : CodecOutcome (List Int) := .panicked

/-- `<i32 as SysctlValue>::from_sysctl` from value.rs: `unimplemented!()`. -/
def i32_from_sysctl (_value : List Int) : CodecOutcome Int := .panicked

/-- `<i64 as SysctlValue>::to_sysctl` from value.rs: `unimplemented!()`. -/
def i64_to_sysctl (_v : Int) : CodecOutcome (List Int) := .panicked

/-- `<i64 as SysctlValue>::from_sysctl` from value.rs: `unimplemented!()`. -/
def i64_from_sysctl (_value : List Int) : CodecOutcome Int := .panicked

/-- `<String as SysctlValue>::to_sysctl` from value.rs: `unimplemented!()`. -/
def string_to_sysctl (_v : String) : CodecOutcome (List Int) := .panicked

/-- `<String as SysctlValue>::from_sysctl` from value.rs: `unimplemented!()`. -/
def string_from_sysctl (_value : List Int) : CodecOutcome String := .panicked

/-- `<u64 as SysctlValue>::to_sysctl` from value.rs: `unimplemented!()`. -/
def u64_to_sysctl (_v : Nat) : CodecOutcome (List Int) := .panicked

/-- `<u64 as SysctlValue>::from_sysctl` from value.rs: `unimplemented!()`. -/
def u64_from_sysctl (_value : List Int) : CodecOutcome Nat := .panicked

/-- A kernel stub that reports success on every call. -/
def kernelOK : KernelCall → KernelReply := fun _ => ⟨0, 0⟩

/-- A kernel stub that fails every call with errno 13 (EACCES). -/
def kernelFail : KernelCall → KernelReply := fun _ => ⟨-1, 13⟩

/-- The split never yields an empty group list: like the Rust split
iterator it produces at least one (possibly empty) segment. -/
theorem splitChars_ne_nil (l : List Char) : splitChars l ≠ [] := by
  cases l with
  | nil => simp [splitChars]
  | cons c rest =>
    cases hc : isDelim c with
    | true => simp [splitChars, hc]
    | false =>
      simp only [splitChars, hc, Bool.false_eq_true, if_false]
      cases hs : splitChars rest with
      | nil => simp
      | cons g gs => simp

/-- Splitting around a delimiter character concatenates the splits of the
two sides. -/
theorem splitChars_append_delim (c : Char) (hc : isDelim c = true) :
    ∀ a b : List Char, splitChars (a ++ c :: b) = splitChars a ++ splitChars b := by
  intro a
  induction a with
  | nil =>
    intro b
    simp [splitChars, hc]
  | cons d a ih =>
    intro b
    cases hd : isDelim d with
    | true =>
      simp [splitChars, hd, ih]
    | false =>
      simp only [List.cons_append, splitChars, hd, Bool.false_eq_true, if_false,
        List.append_eq]
      rw [ih b]
      cases hs : splitChars a with
      | nil => exact absurd hs (splitChars_ne_nil a)
      | cons g gs => simp

/-- Resolving any segment list of the form kern, ostype, rest yields the
kern.ostype leaf whatever follows: no arm of the resolver looks past the
segments it consumes. -/
theorem get_sysctl_kern_ostype (rest : List String) :
    get_sysctl ("kern" :: "ostype" :: rest) =
      .ok ⟨[CTL_KERN, KERN_OSTYPE], .SysString, false⟩ := rfl

/-- C1: the claim says a path naming a valid prefix but missing required
trailing segments (such as "kern" alone, or "kern.malloc" without a third
segment) makes resolution return an IncompletePath error without indexing
past the end of the segment list. The code does the opposite: it indexes
the segment slice unconditionally and aborts with an out of bounds panic
on both inputs; no IncompletePath error exists in its error type. -/
theorem C1_incomplete_path_panics :
    parse_mib_str ("kern".data) = .panicked oobMsg ∧
    parse_mib_str ("kern.malloc".data) = .panicked oobMsg :=
  ⟨rfl, rfl⟩

/-- C2: the claim says a write (non null new value pointer) to a target
with changeable = false fails with NotWritable before any kernel call.
Evaluating the code at a write to kern.ostype (resolved changeable =
false) under an always succeeding kernel stub: the resolver reports the
target unwritable, yet the invoker still issues two kernel calls (size
probe and set phase) and returns success; no mutability check and no
NotWritable error exist in the code. -/
theorem C2_write_to_unwritable_calls_kernel :
    parse_mib_str ("kern.ostype".data) =
      .ok ⟨[CTL_KERN, KERN_OSTYPE], .SysString, false⟩ ∧
    (sysctl_raw kernelOK ("kern.ostype".data) true false).2.length = 2 ∧
    (sysctl_raw kernelOK ("kern.ostype".data) true false).1 = .ok () :=
  ⟨rfl, rfl, rfl⟩

/-- C3: the claim says every resolved address has length at least one and
its first element is the numeric code of the top level domain, CTL_HW = 6
for hw paths. Evaluating the code at "hw.machine": the produced address
is [1], whose first element is the leaf code HW_MACHINE = 1, not CTL_HW;
parse_mib_hw starts from an empty vector instead of pushing CTL_HW the
way every other domain parser pushes its domain code. -/
theorem C3_hw_address_lacks_domain_code :
    parse_mib_str ("hw.machine".data) = .ok ⟨[HW_MACHINE], .SysString, false⟩ ∧
    HW_MACHINE ≠ CTL_HW :=
  ⟨rfl, by decide⟩

/-- C4: resolving "kern.ostype" yields address [1, 1], the CString shape
(SysString in the code) and changeable = false, and resolving "vm.uvmexp"
yields address [2, 4], the opaque record shape (SysStruct) and
changeable = false. -/
theorem C4_concrete_resolutions :
    parse_mib_str ("kern.ostype".data) = .ok ⟨[1, 1], .SysString, false⟩ ∧
    parse_mib_str ("vm.uvmexp".data) = .ok ⟨[2, 4], .SysStruct, false⟩ :=
  ⟨rfl, rfl⟩

/-- C5 counterexample: the claim says every read of a variable length
shape (CString, OpaqueRecord, or an array shape) first issues a size
probe with a null output pointer. Reading "vm.uvmexp", whose resolved
shape is the opaque record SysStruct, issues exactly one kernel call and
that call carries the caller output pointer (not null): no probe is
issued for any shape other than SysString. -/
theorem C5_counterexample_struct_read_unprobed :
    (sysctl_raw kernelOK ("vm.uvmexp".data) false true).2 =
      [⟨[CTL_VM, VM_UVMEXP], 2, false, true, newpLen⟩] := rfl

/-- C5 amended: only for the CString shape (SysString) does the invoker
first issue a size probe with null output and input pointers, and a
failing probe is terminal, returning the kernel errno with no second
call; for every other resolved shape a single direct call is issued with
the caller pointers. -/
theorem C5_probe_protocol (kernel : KernelCall → KernelReply)
    (name : List Char) (oldpNull newpNull : Bool) (s : Sysctl)
    (h : parse_mib_str name = .ok s) :
    (s.value_type = .SysString →
      ((kernel ⟨s.mib, s.mib.length, true, true, 0⟩).res < 0 →
        sysctl_raw kernel name oldpNull newpNull =
          (.err (.sys (kernel ⟨s.mib, s.mib.length, true, true, 0⟩).errno),
            [⟨s.mib, s.mib.length, true, true, 0⟩])) ∧
      (0 ≤ (kernel ⟨s.mib, s.mib.length, true, true, 0⟩).res →
        (sysctl_raw kernel name oldpNull newpNull).2 =
          [⟨s.mib, s.mib.length, true, true, 0⟩,
           ⟨s.mib, s.mib.length, oldpNull, newpNull, newpLen⟩])) ∧
    (s.value_type ≠ .SysString →
      (sysctl_raw kernel name oldpNull newpNull).2 =
        [⟨s.mib, s.mib.length, oldpNull, newpNull, newpLen⟩]) := by
  constructor
  · intro hs
    constructor
    · intro hneg
      simp [sysctl_raw, h, hs, hneg]
    · intro hpos
      have hnlt : ¬ (kernel ⟨s.mib, s.mib.length, true, true, 0⟩).res < 0 :=
        not_lt.mpr hpos
      simp [sysctl_raw, h, hs, hnlt]
  · intro hs
    simp [sysctl_raw, h, hs]

/-- C5 witness: the amended protocol at a concrete input. Reading
"kern.ostype" (shape SysString) under a kernel stub that fails every
call with errno 13: the whole operation returns that errno and the trace
is the single probe call with null output and input pointers. -/
theorem C5_probe_protocol_witness :
    sysctl_raw kernelFail ("kern.ostype".data) false true =
      (.err (.sys 13), [⟨[CTL_KERN, KERN_OSTYPE], 2, true, true, 0⟩]) :=
  (C5_probe_protocol kernelFail ("kern.ostype".data) false true
    ⟨[CTL_KERN, KERN_OSTYPE], .SysString, false⟩ rfl).1 rfl |>.1 (by decide)

/-- C6: the claim says a path with a segment matching no child at the
current schema node fails with an UnknownName error naming the segment
and never panics, however many segments remain. In the code the pipex
outq arm matches names[3] instead of names[2], so the path
net.pipex.outq.bogus, whose segment "bogus" matches no child of outq,
aborts with an out of bounds index panic instead of any error; the code
also has no UnknownName error, only a bare invalid argument errno. -/
theorem C6_unknown_segment_panics :
    parse_mib_str ("net.pipex.outq.bogus".data) = .panicked oobMsg := rfl

/-- C7 counterexample: the claim says a path continuing past a schema
leaf fails with TrailingSegments rather than succeeding with the extra
segments ignored. Resolving "kern.ostype.extra" succeeds, returning the
kern.ostype leaf and ignoring the extra segment. -/
theorem C7_counterexample_trailing_accepted :
    parse_mib_str ("kern.ostype.extra".data) =
      .ok ⟨[CTL_KERN, KERN_OSTYPE], .SysString, false⟩ := rfl

/-- C7 amended: resolution never detects trailing segments; whatever
follows a complete leaf path after a further delimiter is ignored and
resolution succeeds with the leaf target, shown here for every
continuation of "kern.ostype.". -/
theorem C7_trailing_segments_ignored (s : List Char) :
    parse_mib_str ("kern.ostype".data ++ '.' :: s) =
      .ok ⟨[CTL_KERN, KERN_OSTYPE], .SysString, false⟩ := by
  have h := splitChars_append_delim '.' (by decide) ("kern.ostype".data) s
  unfold parse_mib_str
  rw [h, List.map_append]
  exact get_sysctl_kern_ostype ((splitChars s).map (fun cs => String.mk cs))

/-- C8 counterexample: the claim says every input with an empty segment
(leading, trailing, or doubled delimiter) makes tokenization fail with a
MalformedPath error. The input "kern." (trailing delimiter, hence an
empty final segment) instead resolves successfully: the empty segment
matches an explicit empty string arm of the kern table and yields the
KERN_CONSBUFSIZE address. -/
theorem C8_counterexample_empty_segment_accepted :
    parse_mib_str ("kern.".data) =
      .ok ⟨[CTL_KERN, KERN_CONSBUFSIZE], .Int32, false⟩ := rfl

/-- C8 amended: the tokenizer performs no empty segment check and no
MalformedPath error exists. An empty segment flows into resolution,
where it either fails with the same invalid argument error an unknown
name produces (".kern", compare "kern.nonexistent") or even resolves
successfully against an explicit empty string table entry
("kern..ostype", where the empty second segment selects the
KERN_CONSBUFSIZE arm and "ostype" is ignored). -/
theorem C8_empty_segments_flow_into_resolution :
    parse_mib_str (".kern".data) = .err .invalidArgument ∧
    parse_mib_str ("kern.nonexistent".data) = .err .invalidArgument ∧
    parse_mib_str ("kern..ostype".data) =
      .ok ⟨[CTL_KERN, KERN_CONSBUFSIZE], .Int32, false⟩ :=
  ⟨rfl, rfl, rfl⟩

/-- C9: both codec conversions of the SysctlValue trait abort for every
typed value of every implementing type (i32, i64, String, u64): each
body is the unimplemented macro, so no encode or decode through the
trait can succeed on any input. -/
theorem C9_codecs_always_abort :
    (∀ v, i32_to_sysctl v = .panicked) ∧
    (∀ b, i32_from_sysctl b = .panicked) ∧
    (∀ v, i64_to_sysctl v = .panicked) ∧
    (∀ b, i64_from_sysctl b = .panicked) ∧
    (∀ v, string_to_sysctl v = .panicked) ∧
    (∀ b, string_from_sysctl b = .panicked) ∧
    (∀ v, u64_to_sysctl v = .panicked) ∧
    (∀ b, u64_from_sysctl b = .panicked) :=
  ⟨fun _ => rfl, fun _ => rfl, fun _ => rfl, fun _ => rfl,
   fun _ => rfl, fun _ => rfl, fun _ => rfl, fun _ => rfl⟩

/-- C10: the tokenizer splits on the assignment and hierarchy delimiters
with one predicate in one pass, so replacing an assignment delimiter by
a hierarchy delimiter anywhere in the input never changes the resolved
target; in particular "kern.hostname=myhost" resolves to exactly the
target of "kern.hostname", the literal value being an ignored trailing
segment. -/
theorem C10_assignment_equals_dot :
    (∀ s t : List Char, parse_mib_str (s ++ '=' :: t) = parse_mib_str (s ++ '.' :: t)) ∧
    parse_mib_str ("kern.hostname=myhost".data) = parse_mib_str ("kern.hostname".data) ∧
    parse_mib_str ("kern.hostname".data) =
      .ok ⟨[CTL_KERN, KERN_HOSTNAME], .SysString, true⟩ := by
  refine ⟨fun s t => ?_, rfl, rfl⟩
  unfold parse_mib_str
  rw [splitChars_append_delim '=' (by decide) s t,
    splitChars_append_delim '.' (by decide) s t]

end PuffySysctl
